import Mathlib

/-!
Shallow embedding of the Bring-Up server's task lifecycle engine
(`libs/tasks/src/lib/task.controller.ts`, class `TaskService`) and of its
notification dispatch coordinator (`libs/alert/src/lib/alert.module.ts`,
class `AlertService`), together with proofs of the specification claims.

Firestore timestamps are modelled as milliseconds since the epoch (`Nat`),
mirroring `admin.firestore.Timestamp.toMillis()`.  Firestore documents are
modelled as explicit values; a method that throws is modelled as returning
`Except.error`, and each stateful method additionally reports the document
store content after the call, so that "no write was issued" is expressible.
-/

namespace BringUp

/-- Task statuses (enum `TaskStatus` in `libs/shared/src/types/alert.ts`). -/
inductive TaskStatus where
  | pending
  | completed
  | cancelled
  | expired
deriving DecidableEq, Repr

/-- Assignee reactions (enum `TaskReaction`). -/
inductive TaskReaction where
  | on_it
  | running_late
  | need_help
deriving DecidableEq, Repr

/-- Milliseconds in a minute (`TASK_TIME_MS.MINUTE`). -/
def TASK_TIME_MS_MINUTE : Nat := 60 * 1000

/-- Retention window added to expiry (`TASK_TIME_MS.DEFAULT_TTL_AFTER_EXPIRY`, 7 days). -/
def TASK_TIME_MS_DEFAULT_TTL_AFTER_EXPIRY : Nat := 7 * 24 * 60 * 60 * 1000

/-- Extension granted by a running-late reaction (`TASK_TIME_MS.RUNNING_LATE_EXTENSION`, 30 minutes). -/
def TASK_TIME_MS_RUNNING_LATE_EXTENSION : Nat := 30 * 60 * 1000

/-- Maximum number of extensions (`TASK_TIME_MINUTES.MAX_EXTENSIONS`). -/
def TASK_TIME_MINUTES_MAX_EXTENSIONS : Nat := 3

namespace TASK_ERROR_MESSAGES

def TASK_NOT_FOUND : String := "Task not found"

def CREATOR_NOT_FOUND : String := "Creator user not found"

def ASSIGNEE_NOT_FOUND (email : String) : String :=
  "User with email " ++ email ++ " not found"

def SELF_ASSIGNMENT : String := "Cannot assign task to yourself"

def ACCESS_DENIED : String := "You do not have access to this task"

def CANNOT_UPDATE_EXPIRED : String := "Cannot update an expired task"

def ALREADY_COMPLETED : String := "Task is already completed"

def ALREADY_CANCELLED : String := "Task is already cancelled"

def CANNOT_REACT : String := "Cannot react to non-pending tasks"

def MAX_EXTENSIONS : String := "Maximum number of extensions reached"

def ONLY_ASSIGNEE_CAN_REACT : String := "Only assignee can set reaction"

def ONLY_CREATOR_CAN_CANCEL : String := "Only task creator can cancel the task"

def ONLY_ASSIGNEE_CAN_COMPLETE : String := "Only assignee can mark task as completed"

def ONLY_CREATOR_CAN_DELETE : String := "Only task creator can delete the task"

end TASK_ERROR_MESSAGES

instance {ε α : Type} [DecidableEq ε] [DecidableEq α] : DecidableEq (Except ε α) :=
  fun a b =>
    match a, b with
    | Except.ok x, Except.ok y =>
      if h : x = y then isTrue (by rw [h])
      else isFalse (by intro hh; exact h (Except.ok.inj hh))
    | Except.ok _, Except.error _ => isFalse (by intro hh; exact Except.noConfusion hh)
    | Except.error _, Except.ok _ => isFalse (by intro hh; exact Except.noConfusion hh)
    | Except.error e, Except.error f =>
      if h : e = f then isTrue (by rw [h])
      else isFalse (by intro hh; exact h (Except.error.inj hh))

/-- Exceptions thrown by `TaskService` (NestJS exception classes, with message). -/
inductive TaskError where
  | notFound (msg : String)
  | forbidden (msg : String)
  | badRequest (msg : String)
deriving DecidableEq, Repr

/-- Minimal user info embedded in a task (`TaskUser`). -/
structure TaskUser where
  uid : String
  email : String
  name : String
deriving DecidableEq, Repr

/-- Task urgency sub-record (`TaskUrgency`). -/
structure TaskUrgency where
  expiresAt : Nat
  durationMinutes : Nat
deriving DecidableEq, Repr

/-- Task notification sub-record (`TaskNotification`). -/
structure TaskNotification where
  sent : Bool
  sentAt : Option Nat
  error : Option String
deriving DecidableEq, Repr

/-- Stored task document (`TaskDocument` plus its document `id`). -/
structure Task where
  id : String
  title : String
  note : Option String
  createdBy : TaskUser
  assignedTo : TaskUser
  status : TaskStatus
  assigneeReaction : Option TaskReaction
  urgency : TaskUrgency
  notification : TaskNotification
  createdAt : Nat
  updatedAt : Nat
  ttl : Nat
  extensionCount : Nat
deriving DecidableEq, Repr

/-- Result of a stateful `TaskService` method: what it returned (or threw) and
the stored document after the call (`none` when the document never existed). -/
structure TaskRun where
  result : Except TaskError Task
  store : Option Task
deriving DecidableEq, Repr

/-- Check if a task is expired (`TaskService.isExpired`):
`expiresAt.toMillis() <= Date.now()`. -/
def isExpired (expiresAt now : Nat) : Bool :=
  decide (expiresAt ≤ now)

/-- Authorization checks at the head of `TaskService.updateTaskStatus`:
cancellation only by the creator, completion only by the assignee, and both
checks are skipped when no `userUid` is supplied (system-triggered calls). -/
def statusAuthError (taskData : Task) (status : TaskStatus)
    (userUid : Option String) : Option TaskError :=
  match userUid with
  | none => none
  | some u =>
    if status = TaskStatus.cancelled ∧ taskData.createdBy.uid ≠ u then
      some (TaskError.forbidden TASK_ERROR_MESSAGES.ONLY_CREATOR_CAN_CANCEL)
    else if status = TaskStatus.completed ∧ taskData.assignedTo.uid ≠ u then
      some (TaskError.forbidden TASK_ERROR_MESSAGES.ONLY_ASSIGNEE_CAN_COMPLETE)
    else
      none

/-- `TaskService.updateTaskStatus`: fetch the document, run the authorization
checks, reject terminal stored statuses with their distinct messages, then
persist `{status, updatedAt}`.  Every throw happens before the write. -/
def updateTaskStatus (stored : Option Task) (status : TaskStatus)
    (userUid : Option String) (now : Nat) : Except TaskError Task :=
  match stored with
  | none => Except.error (TaskError.notFound TASK_ERROR_MESSAGES.TASK_NOT_FOUND)
  | some taskData =>
    match statusAuthError taskData status userUid with
    | some e => Except.error e
    | none =>
      if taskData.status = TaskStatus.expired then
        Except.error (TaskError.badRequest TASK_ERROR_MESSAGES.CANNOT_UPDATE_EXPIRED)
      else if taskData.status = TaskStatus.completed then
        Except.error (TaskError.badRequest TASK_ERROR_MESSAGES.ALREADY_COMPLETED)
      else if taskData.status = TaskStatus.cancelled then
        Except.error (TaskError.badRequest TASK_ERROR_MESSAGES.ALREADY_CANCELLED)
      else
        Except.ok { taskData with status := status, updatedAt := now }

/-- `updateTaskStatus` with the resulting store content: in the source every
throw precedes `taskRef.update`, so an error leaves the document untouched. -/
def updateTaskStatusRun (stored : Option Task) (status : TaskStatus)
    (userUid : Option String) (now : Nat) : TaskRun :=
  match updateTaskStatus stored status userUid now with
  | Except.ok t' => { result := Except.ok t', store := some t' }
  | Except.error e => { result := Except.error e, store := stored }

/-- Result of `TaskService.updateTaskReaction`: return value, store content
after the call, and whether a notification dispatch was attempted. -/
structure ReactionRun where
  result : Except TaskError Task
  store : Option Task
  notified : Bool
deriving DecidableEq, Repr

/-- The running-late branch of `TaskService.updateTaskReaction`: every
reaction sets `assigneeReaction` and `updatedAt`; `running_late` additionally
checks the extension cap, pushes `urgency.expiresAt` 30 minutes out,
recomputes `ttl` from the new expiry and increments `extensionCount`. -/
def reactionUpdate (taskData : Task) (reaction : TaskReaction)
    (now : Nat) : Except TaskError Task :=
  let base := { taskData with assigneeReaction := some reaction, updatedAt := now }
  if reaction = TaskReaction.running_late then
    if TASK_TIME_MINUTES_MAX_EXTENSIONS ≤ taskData.extensionCount then
      Except.error (TaskError.badRequest TASK_ERROR_MESSAGES.MAX_EXTENSIONS)
    else
      let newExpiresAt :=
        taskData.urgency.expiresAt + TASK_TIME_MS_RUNNING_LATE_EXTENSION
      Except.ok { base with
        urgency := { taskData.urgency with expiresAt := newExpiresAt },
        extensionCount := taskData.extensionCount + 1,
        ttl := newExpiresAt + TASK_TIME_MS_DEFAULT_TTL_AFTER_EXPIRY }
  else
    Except.ok base

/-- `TaskService.updateTaskReaction`: only the assignee may react, only while
the task is pending; the running-late extension logic is `reactionUpdate`;
after the write a creator notification is attempted and any failure of it is
caught and only logged (the `notifyOutcome` argument models the outcome of
that attempt, which the method swallows). -/
def updateTaskReactionRun (stored : Option Task) (reaction : TaskReaction)
    (userUid : String) (now : Nat) (notifyOutcome : Except String Unit) :
    ReactionRun :=
  match stored with
  | none =>
    { result := Except.error (TaskError.notFound TASK_ERROR_MESSAGES.TASK_NOT_FOUND),
      store := none, notified := false }
  | some taskData =>
    if taskData.assignedTo.uid ≠ userUid then
      { result := Except.error (TaskError.forbidden TASK_ERROR_MESSAGES.ONLY_ASSIGNEE_CAN_REACT),
        store := some taskData, notified := false }
    else if taskData.status ≠ TaskStatus.pending then
      { result := Except.error (TaskError.badRequest TASK_ERROR_MESSAGES.CANNOT_REACT),
        store := some taskData, notified := false }
    else
      match reactionUpdate taskData reaction now with
      | Except.error e =>
        { result := Except.error e, store := some taskData, notified := false }
      | Except.ok updated =>
        { result := Except.ok updated, store := some updated, notified := true }

/-- `TaskService.getTaskById`: authorize via `getAuthorizedTask` (creator or
assignee only), then lazily expire a stale pending task, persisting
`{status: expired, updatedAt: now}` as part of the read. -/
def getTaskByIdRun (stored : Option Task) (userUid : String) (now : Nat) :
    TaskRun :=
  match stored with
  | none =>
    { result := Except.error (TaskError.notFound TASK_ERROR_MESSAGES.TASK_NOT_FOUND),
      store := none }
  | some task =>
    if task.createdBy.uid ≠ userUid ∧ task.assignedTo.uid ≠ userUid then
      { result := Except.error (TaskError.forbidden TASK_ERROR_MESSAGES.ACCESS_DENIED),
        store := some task }
    else if task.status = TaskStatus.pending ∧ isExpired task.urgency.expiresAt now then
      let t' := { task with status := TaskStatus.expired, updatedAt := now }
      { result := Except.ok t', store := some t' }
    else
      { result := Except.ok task, store := some task }

/-- The task document built and persisted by `TaskService.createTask` before
the notification attempt: `expiresAt = now + durationMinutes minutes`,
`ttl = expiresAt + 7 days`, status pending, no reaction, zero extensions,
notification `{sent: false, sentAt: null}`.  `newId` models the document id
generated by the store on `add`. -/
def createTaskDoc (newId title : String) (note : Option String)
    (durationMinutes : Nat) (creator assignee : TaskUser) (now : Nat) : Task :=
  let expiresAt := now + durationMinutes * TASK_TIME_MS_MINUTE
  { id := newId
    title := title.trim
    note := note.map (fun s => s.trim)
    createdBy := creator
    assignedTo := assignee
    status := TaskStatus.pending
    assigneeReaction := none
    urgency := { expiresAt := expiresAt, durationMinutes := durationMinutes }
    notification := { sent := false, sentAt := none, error := none }
    createdAt := now
    updatedAt := now
    ttl := expiresAt + TASK_TIME_MS_DEFAULT_TTL_AFTER_EXPIRY
    extensionCount := 0 }

/-- Result of `TaskService.createTask`: return value, the document as first
persisted (before the notification attempt updated its notification
sub-record), and the stored document after the call. -/
structure CreateRun where
  result : Except TaskError Task
  persisted : Option Task
  store : Option Task
deriving DecidableEq, Repr

/-- `TaskService.createTask`: resolve creator (`getTaskUser`) and assignee
(`findUserByEmail`) — both `NotFound` when missing — reject self-assignment,
persist the new document, then attempt the assignment notification.  On
notification success (`notifyOutcome = ok sentAtMs`, the timestamp taken
after the send) the document's notification sub-record becomes
`{sent: true, sentAt}`; on failure the exception is caught and recorded as
`{sent: false, error}`; either way the method returns the task.  The creator
lookup result always carries `uid = creatorUid`. -/
def createTaskRun (creatorLookup assigneeLookup : Option TaskUser)
    (assignToEmail newId title : String) (note : Option String)
    (durationMinutes : Nat) (creatorUid : String) (now : Nat)
    (notifyOutcome : Except String Nat) : CreateRun :=
  match creatorLookup with
  | none =>
    { result := Except.error (TaskError.notFound TASK_ERROR_MESSAGES.CREATOR_NOT_FOUND),
      persisted := none, store := none }
  | some creator =>
    match assigneeLookup with
    | none =>
      { result := Except.error
          (TaskError.notFound (TASK_ERROR_MESSAGES.ASSIGNEE_NOT_FOUND assignToEmail)),
        persisted := none, store := none }
    | some assignee =>
      if assignee.uid = creatorUid then
        { result := Except.error (TaskError.badRequest TASK_ERROR_MESSAGES.SELF_ASSIGNMENT),
          persisted := none, store := none }
      else
        let doc := createTaskDoc newId title note durationMinutes creator assignee now
        match notifyOutcome with
        | Except.ok sentAtMs =>
          let final := { doc with
            notification := { sent := true, sentAt := some sentAtMs, error := none } }
          { result := Except.ok final, persisted := some doc, store := some final }
        | Except.error msg =>
          let final := { doc with
            notification := { sent := false, sentAt := none, error := some msg } }
          { result := Except.ok final, persisted := some doc, store := some final }

/-! ## Notification dispatch coordinator (`AlertService`) -/

/-- Notification types (enum `NotificationType`); only the constructors the
dispatch path distinguishes are listed by name, the rest behave alike. -/
inductive NotificationType where
  | task_assigned
  | task_reaction
  | task_completed
  | task_reminder
  | task_updated
  | task_deleted
  | system_alert
deriving DecidableEq, Repr

/-- Notification delivery statuses (enum `NotificationStatus`). -/
inductive NotificationStatus where
  | pending
  | sent
  | delivered
  | read
  | failed
deriving DecidableEq, Repr

/-- Recipient user document as read by `AlertService.getUser`
(`FirebaseUser`; `fcmToken: string | null`). -/
structure FirebaseUser where
  name : Option String
  email : Option String
  fcmToken : Option String
deriving DecidableEq, Repr

/-- Parameters of `AlertService.sendPushNotification`
(`ISendPushNotificationParams`, with `dataType` folded into `type`). -/
structure SendPushParams where
  taskId : String
  recipientUid : String
  senderUid : String
  type : NotificationType
  title : String
  body : String
deriving DecidableEq, Repr

/-- Stored notification document (`INotificationDocument`, plus the
`fcmMessageId` field written on successful delivery). -/
structure NotificationRecord where
  type : NotificationType
  recipientUid : String
  senderUid : String
  taskId : String
  title : String
  body : String
  status : NotificationStatus
  isRead : Bool
  createdAt : Nat
  sentAt : Option Nat
  readAt : Option Nat
  error : Option String
  fcmMessageId : Option String
deriving DecidableEq, Repr

/-- An Expo push ticket: either `status: error` with an optional message, or
a success ticket with an optional id (`ticket?.id`). -/
inductive PushTicket where
  | errorStatus (message : Option String)
  | okStatus (msgId : Option String)
deriving DecidableEq, Repr

/-- Outcome of one dispatch attempt: skipped by the idempotency gate, record
written and method returned normally, or record written and an exception
with the given message raised to the caller. -/
inductive DispatchOutcome where
  | skippedExisting
  | done (record : NotificationRecord)
  | raised (record : NotificationRecord) (msg : String)
deriving DecidableEq, Repr

/-- JavaScript `a || b` on an optional string: `b` when `a` is absent or
empty (falsy). -/
def jsOrStr (s : Option String) (dflt : String) : String :=
  match s with
  | some t => if t = "" then dflt else t
  | none => dflt

/-- JavaScript truthiness of an optional string (`null`, `undefined` and
`""` are falsy). -/
def jsTruthyStr (s : Option String) : Bool :=
  match s with
  | some t => decide (t ≠ "")
  | none => false

/-- `AlertService.createNotificationRecord`: a fresh record with status
pending, unread, no sent/read instants. -/
def createNotificationRecord (p : SendPushParams) (createdAt : Nat) :
    NotificationRecord :=
  { type := p.type, recipientUid := p.recipientUid, senderUid := p.senderUid,
    taskId := p.taskId, title := p.title, body := p.body,
    status := NotificationStatus.pending, isRead := false,
    createdAt := createdAt, sentAt := none, readAt := none,
    error := none, fcmMessageId := none }

/-- `AlertService.updateNotificationStatus`: write the new status and, when a
(truthy) error string is supplied, the error field. -/
def updateNotificationStatus (record : NotificationRecord)
    (status : NotificationStatus) (error : Option String) : NotificationRecord :=
  if jsTruthyStr error then
    { record with status := status, error := error }
  else
    { record with status := status }

/-- `AlertService.sendExpoNotification`: an error ticket marks the record
failed with the ticket message (falling back to "Unknown Expo error") and
throws that message; otherwise the record is marked sent with the send
timestamp and the ticket id (falling back to "unknown"). -/
def sendExpoNotification (record : NotificationRecord)
    (ticket : Option PushTicket) (sentNow : Nat) : DispatchOutcome :=
  match ticket with
  | some (PushTicket.errorStatus m) =>
    let errMsg := jsOrStr m "Unknown Expo error"
    DispatchOutcome.raised
      (updateNotificationStatus record NotificationStatus.failed (some errMsg)) errMsg
  | some (PushTicket.okStatus msgId) =>
    DispatchOutcome.done { record with
      status := NotificationStatus.sent, sentAt := some sentNow,
      fcmMessageId := some (jsOrStr msgId "unknown") }
  | none =>
    DispatchOutcome.done { record with
      status := NotificationStatus.sent, sentAt := some sentNow,
      fcmMessageId := some "unknown" }

/-- `AlertService.sendPushNotification`: idempotency gate for assignment
notifications (`existing` models `checkExistingNotification`), record
creation, recipient and token resolution (missing user / missing token /
malformed token each mark the record failed and return normally), then the
Expo submission.  `isExpoPushToken` models the external
`Expo.isExpoPushToken` format check; `ticket` the provider response. -/
def sendPushNotification (existing : Bool) (recipient : Option FirebaseUser)
    (isExpoPushToken : String → Bool) (ticket : Option PushTicket)
    (p : SendPushParams) (createdAt sentNow : Nat) : DispatchOutcome :=
  if p.type = NotificationType.task_assigned ∧ existing = true then
    DispatchOutcome.skippedExisting
  else
    let record := createNotificationRecord p createdAt
    match recipient with
    | none =>
      DispatchOutcome.done
        (updateNotificationStatus record NotificationStatus.failed (some "User not found"))
    | some user =>
      if jsTruthyStr user.fcmToken = false then
        DispatchOutcome.done
          (updateNotificationStatus record NotificationStatus.failed
            (some "User has no FCM token - needs to login to enable notifications"))
      else
        match user.fcmToken with
        | none =>
          DispatchOutcome.done
            (updateNotificationStatus record NotificationStatus.failed
              (some "User has no FCM token - needs to login to enable notifications"))
        | some tok =>
          if isExpoPushToken tok = false then
            DispatchOutcome.done
              (updateNotificationStatus record NotificationStatus.failed
                (some "Invalid Expo Push Token format"))
          else
            sendExpoNotification record ticket sentNow

/-- `AlertService.checkExistingNotification`: a record with the same
`(taskId, recipientUid, type)` key already exists in the store. -/
def checkExistingNotification (store : List NotificationRecord)
    (taskId recipientUid : String) (t : NotificationType) : Bool :=
  store.any (fun r =>
    decide (r.taskId = taskId ∧ r.recipientUid = recipientUid ∧ r.type = t))

/-- Per-call environment of one dispatch attempt: the recipient lookup
result, the external token-format check, the provider response and the two
timestamps taken during the call. -/
structure DispatchEnv where
  recipient : Option FirebaseUser
  isExpoPushToken : String → Bool
  ticket : Option PushTicket
  createdAt : Nat
  sentNow : Nat

/-- One dispatch trigger against the notification store: the idempotency
lookup runs against the store, and unless the gate skips, the record (with
its final status) is inserted.  Status updates during the attempt mutate
that same record in place and never touch its key fields. -/
def dispatchPush (store : List NotificationRecord) (env : DispatchEnv)
    (p : SendPushParams) : List NotificationRecord × DispatchOutcome :=
  let existing := checkExistingNotification store p.taskId p.recipientUid p.type
  match sendPushNotification existing env.recipient env.isExpoPushToken
      env.ticket p env.createdAt env.sentNow with
  | DispatchOutcome.skippedExisting => (store, DispatchOutcome.skippedExisting)
  | DispatchOutcome.done r => (store ++ [r], DispatchOutcome.done r)
  | DispatchOutcome.raised r m => (store ++ [r], DispatchOutcome.raised r m)

/-- `n` successive dispatch triggers for the same parameters, each with its
own environment. -/
def dispatchN (env : Nat → DispatchEnv) (p : SendPushParams)
    (store : List NotificationRecord) : Nat → List NotificationRecord
  | 0 => store
  | n + 1 => (dispatchPush (dispatchN env p store n) (env n) p).1

/-- Number of stored assignment notifications for a `(task, recipient)`
pair. -/
def assignedCount (store : List NotificationRecord)
    (taskId recipientUid : String) : Nat :=
  (store.filter (fun r =>
    decide (r.taskId = taskId ∧ r.recipientUid = recipientUid ∧
      r.type = NotificationType.task_assigned))).length

/-! ## Pagination -/

/-- Pagination metadata (`PaginationMeta`). -/
structure PaginationMeta where
  currentPage : Nat
  itemsPerPage : Nat
  totalItems : Nat
  totalPages : Nat
  hasNextPage : Bool
  hasPreviousPage : Bool
deriving DecidableEq, Repr

/-- `TaskService.buildPaginationMeta`: `totalPages = Math.ceil(totalItems /
limit)` (natural-number ceiling division for `limit ≥ 1`),
`hasNextPage = page < totalPages`, `hasPreviousPage = page > 1`. -/
def buildPaginationMeta (totalItems page limit : Nat) : PaginationMeta :=
  let totalPages := (totalItems + limit - 1) / limit
  { currentPage := page
    itemsPerPage := limit
    totalItems := totalItems
    totalPages := totalPages
    hasNextPage := decide (page < totalPages)
    hasPreviousPage := decide (1 < page) }

/-! ## Fixtures used by witness theorems -/

/-- Sample task creator. -/
def creatorA : TaskUser := { uid := "u1", email := "a@example.com", name := "Alice" }

/-- Sample task assignee. -/
def assigneeB : TaskUser := { uid := "u2", email := "b@example.com", name := "Bob" }

/-- Sample pending task created by `creatorA` for `assigneeB`. -/
def sampleTask : Task :=
  { id := "t1", title := "Ship the report", note := none,
    createdBy := creatorA, assignedTo := assigneeB,
    status := TaskStatus.pending, assigneeReaction := none,
    urgency := { expiresAt := 1000000, durationMinutes := 30 },
    notification := { sent := false, sentAt := none, error := none },
    createdAt := 0, updatedAt := 0,
    ttl := 1000000 + 604800000, extensionCount := 0 }

/-! ## Pagination (claim C9) -/

theorem lt_ceilDiv_iff (n T L : Nat) (hL : 0 < L) :
    n < (T + L - 1) / L ↔ n * L < T := by
  rw [Nat.lt_iff_add_one_le, Nat.le_div_iff_mul_le hL, Nat.add_mul, Nat.one_mul]
  generalize n * L = P
  omega

/-- Claim C9: for integer `page ≥ 1` and `pageSize ≥ 1`, the metadata built
by `buildPaginationMeta` satisfies `totalPages = ceil(totalItems/pageSize)`
(stated as the least-upper-bound characterisation of the ceiling),
`hasPreviousPage ⟺ page > 1`, and `hasNextPage ⟺ page * pageSize <
totalItems` — the implementation's `page < totalPages` test is equivalent to
the spec's inequality for every `totalItems`. -/
theorem buildPaginationMeta_correct (totalItems page limit : Nat)
    (hp : 1 ≤ page) (hl : 1 ≤ limit) :
    (totalItems ≤ (buildPaginationMeta totalItems page limit).totalPages * limit ∧
      ∀ m, totalItems ≤ m * limit →
        (buildPaginationMeta totalItems page limit).totalPages ≤ m) ∧
    ((buildPaginationMeta totalItems page limit).hasPreviousPage = true ↔ 1 < page) ∧
    ((buildPaginationMeta totalItems page limit).hasNextPage = true ↔
      page * limit < totalItems) := by
  have hL : 0 < limit := hl
  have hTP : (buildPaginationMeta totalItems page limit).totalPages =
      (totalItems + limit - 1) / limit := rfl
  have hceil : ∀ m : Nat,
      (totalItems + limit - 1) / limit ≤ m ↔ totalItems ≤ m * limit := by
    intro m
    rw [← Nat.not_lt, lt_ceilDiv_iff m totalItems limit hL, Nat.not_lt]
  refine ⟨⟨?_, ?_⟩, ?_, ?_⟩
  · rw [hTP]
    exact (hceil _).mp le_rfl
  · intro m hm
    rw [hTP]
    exact (hceil m).mpr hm
  · simp [buildPaginationMeta]
  · rw [show (buildPaginationMeta totalItems page limit).hasNextPage =
        decide (page < (totalItems + limit - 1) / limit) from rfl,
      decide_eq_true_iff]
    exact lt_ceilDiv_iff page totalItems limit hL

/-- Witness for claim C9 at `totalItems = 45`, `page = 2`, `limit = 20`. -/
theorem buildPaginationMeta_correct_witness :
    (1 ≤ 2 ∧ 1 ≤ 20) ∧ ((buildPaginationMeta 45 2 20).hasNextPage = true ↔
      2 * 20 < 45) :=
  ⟨⟨by decide, by decide⟩,
    (buildPaginationMeta_correct 45 2 20 (by decide) (by decide)).2.2⟩

/-! ## Terminal statuses (claim C1) -/

/-- The distinct rejection message `updateTaskStatus` uses for each terminal
stored status. -/
def terminalStatusReason : TaskStatus → String
  | TaskStatus.completed => TASK_ERROR_MESSAGES.ALREADY_COMPLETED
  | TaskStatus.cancelled => TASK_ERROR_MESSAGES.ALREADY_CANCELLED
  | _ => TASK_ERROR_MESSAGES.CANNOT_UPDATE_EXPIRED

/-- Counterexample to claim C1 as stated: on a completed task, a status
update targeting `cancelled` issued by the assignee (not the creator) fails
with the Forbidden "only creator can cancel" error — the authorization check
runs before the terminal-status guard — not with the "already completed"
sub-reason the claim asserts for every subsequent call. -/
theorem terminal_reason_counterexample :
    updateTaskStatus (some { sampleTask with status := TaskStatus.completed })
        TaskStatus.cancelled (some "u2") 5 =
      Except.error (TaskError.forbidden TASK_ERROR_MESSAGES.ONLY_CREATOR_CAN_CANCEL) ∧
    TaskError.forbidden TASK_ERROR_MESSAGES.ONLY_CREATOR_CAN_CANCEL ≠
      TaskError.badRequest TASK_ERROR_MESSAGES.ALREADY_COMPLETED := by
  constructor
  · decide
  · decide

/-- Claim C1 (amended): from a stored status in {completed, cancelled,
expired} every `updateTaskStatus` call and every `updateTaskReaction` call
fails and leaves the stored task unchanged, so the three terminal states are
absorbing; the failure carries the distinct sub-reason for the stored state
whenever the role-authorization checks pass (and the Forbidden authorization
error otherwise), and a reaction call by the assignee fails with "cannot
react to non-pending tasks"; pending is the only stored state from which
`updateTaskStatus` can succeed. -/
theorem terminal_states_absorbing (t : Task)
    (hterm : t.status = TaskStatus.completed ∨ t.status = TaskStatus.cancelled ∨
      t.status = TaskStatus.expired) :
    (∀ target uid now, ∃ e,
      updateTaskStatusRun (some t) target uid now =
        { result := Except.error e, store := some t }) ∧
    (∀ target uid now, statusAuthError t target uid = none →
      (updateTaskStatusRun (some t) target uid now).result =
        Except.error (TaskError.badRequest (terminalStatusReason t.status))) ∧
    (∀ r uid now outcome, ∃ e,
      updateTaskReactionRun (some t) r uid now outcome =
        { result := Except.error e, store := some t, notified := false }) ∧
    (∀ r now outcome,
      (updateTaskReactionRun (some t) r t.assignedTo.uid now outcome).result =
        Except.error (TaskError.badRequest TASK_ERROR_MESSAGES.CANNOT_REACT)) ∧
    (∀ t0 : Task, ∀ target uid now t',
      updateTaskStatus (some t0) target uid now = Except.ok t' →
        t0.status = TaskStatus.pending) := by
  have habs : ∀ target uid now, ∃ e,
      updateTaskStatus (some t) target uid now = Except.error e := by
    intro target uid now
    rcases hsa : statusAuthError t target uid with _ | e
    · rcases hterm with h | h | h
      · exact ⟨TaskError.badRequest TASK_ERROR_MESSAGES.ALREADY_COMPLETED,
          by simp [updateTaskStatus, hsa, h]⟩
      · exact ⟨TaskError.badRequest TASK_ERROR_MESSAGES.ALREADY_CANCELLED,
          by simp [updateTaskStatus, hsa, h]⟩
      · exact ⟨TaskError.badRequest TASK_ERROR_MESSAGES.CANNOT_UPDATE_EXPIRED,
          by simp [updateTaskStatus, hsa, h]⟩
    · exact ⟨e, by simp [updateTaskStatus, hsa]⟩
  have hnp : t.status ≠ TaskStatus.pending := by
    rcases hterm with h | h | h <;> simp [h]
  refine ⟨?_, ?_, ?_, ?_, ?_⟩
  · intro target uid now
    obtain ⟨e, he⟩ := habs target uid now
    exact ⟨e, by simp [updateTaskStatusRun, he]⟩
  · intro target uid now hnone
    rcases hterm with h | h | h <;>
      simp [updateTaskStatusRun, updateTaskStatus, hnone, h, terminalStatusReason]
  · intro r uid now outcome
    by_cases hu : t.assignedTo.uid = uid
    · exact ⟨TaskError.badRequest TASK_ERROR_MESSAGES.CANNOT_REACT,
        by simp [updateTaskReactionRun, hu, hnp]⟩
    · exact ⟨TaskError.forbidden TASK_ERROR_MESSAGES.ONLY_ASSIGNEE_CAN_REACT,
        by simp [updateTaskReactionRun, hu]⟩
  · intro r now outcome
    simp [updateTaskReactionRun, hnp]
  · intro t0 target uid now t' h
    rcases hsa : statusAuthError t0 target uid with _ | e
    · cases h0 : t0.status
      · rfl
      · simp [updateTaskStatus, hsa, h0] at h
      · simp [updateTaskStatus, hsa, h0] at h
      · simp [updateTaskStatus, hsa, h0] at h
    · simp [updateTaskStatus, hsa] at h

/-- Witness for claim C1 (amended) on a completed task: a repeat completion
attempt by the assignee fails with the "already completed" sub-reason. -/
theorem terminal_states_absorbing_witness :
    (updateTaskStatusRun (some { sampleTask with status := TaskStatus.completed })
        TaskStatus.completed (some "u2") 9).result =
      Except.error (TaskError.badRequest TASK_ERROR_MESSAGES.ALREADY_COMPLETED) :=
  (terminal_states_absorbing { sampleTask with status := TaskStatus.completed }
    (Or.inl rfl)).2.1 TaskStatus.completed (some "u2") 9 (by decide)

/-! ## Status-update authorization surface (claim C10) -/

theorem statusAuthError_some_iff (t : Task) (target : TaskStatus) (u : String) :
    (∃ e, statusAuthError t target (some u) = some e) ↔
      (target = TaskStatus.cancelled ∧ t.createdBy.uid ≠ u) ∨
      (target = TaskStatus.completed ∧ t.assignedTo.uid ≠ u) := by
  unfold statusAuthError
  by_cases h1 : target = TaskStatus.cancelled ∧ t.createdBy.uid ≠ u
  · simp [h1]
  · by_cases h2 : target = TaskStatus.completed ∧ t.assignedTo.uid ≠ u
    · simp [h1, h2]
    · simp [h1, h2]

/-- Claim C10: `updateTaskStatus` with a requester raises Forbidden in
exactly two cases — target `cancelled` with requester ≠ creator, or target
`completed` with requester ≠ assignee — and for the other accepted target
statuses no creator/assignee membership check is made, so any authenticated
user (neither creator nor assignee) can set a pending task's status to
`expired` or back to `pending` through the public status endpoint. -/
theorem updateTaskStatus_forbidden_characterization (t : Task)
    (target : TaskStatus) (u : String) (now : Nat) :
    ((∃ msg, updateTaskStatus (some t) target (some u) now =
        Except.error (TaskError.forbidden msg)) ↔
      (target = TaskStatus.cancelled ∧ t.createdBy.uid ≠ u) ∨
      (target = TaskStatus.completed ∧ t.assignedTo.uid ≠ u)) ∧
    (t.status = TaskStatus.pending →
      (target = TaskStatus.expired ∨ target = TaskStatus.pending) →
      updateTaskStatus (some t) target (some u) now =
        Except.ok { t with status := target, updatedAt := now }) := by
  constructor
  · constructor
    · rintro ⟨msg, hmsg⟩
      rcases hsa : statusAuthError t target (some u) with _ | e
      · rw [updateTaskStatus, hsa] at hmsg
        by_cases h1 : t.status = TaskStatus.expired
        · simp [h1] at hmsg
        · by_cases h2 : t.status = TaskStatus.completed
          · simp [h1, h2] at hmsg
          · by_cases h3 : t.status = TaskStatus.cancelled
            · simp [h1, h2, h3] at hmsg
            · simp [h1, h2, h3] at hmsg
      · apply (statusAuthError_some_iff t target u).mp ⟨e, hsa⟩
    · intro hdis
      rcases hdis with ⟨h1, h2⟩ | ⟨h1, h2⟩
      · exact ⟨TASK_ERROR_MESSAGES.ONLY_CREATOR_CAN_CANCEL,
          by simp [updateTaskStatus, statusAuthError, h1, h2]⟩
      · refine ⟨TASK_ERROR_MESSAGES.ONLY_ASSIGNEE_CAN_COMPLETE, ?_⟩
        have hne : ¬(target = TaskStatus.cancelled ∧ t.createdBy.uid ≠ u) := by
          rintro ⟨hc, _⟩
          rw [h1] at hc
          exact TaskStatus.noConfusion hc
        simp [updateTaskStatus, statusAuthError, hne, h1, h2]
  · intro hp htar
    rcases htar with h | h <;> subst h <;>
      simp [updateTaskStatus, statusAuthError, hp]

/-- Witness for claim C10: a stranger (neither creator `u1` nor assignee
`u2`) successfully expires the pending sample task. -/
theorem updateTaskStatus_forbidden_characterization_witness :
    updateTaskStatus (some sampleTask) TaskStatus.expired (some "stranger") 7 =
      Except.ok { sampleTask with status := TaskStatus.expired, updatedAt := 7 } :=
  (updateTaskStatus_forbidden_characterization sampleTask TaskStatus.expired
    "stranger" 7).2 rfl (Or.inl rfl)

/-! ## Running-late extension policy (claims C2 and C3) -/

/-- The task produced by an accepted running-late reaction: reaction and
`updatedAt` set, expiry pushed 30 minutes out, ttl recomputed from the new
expiry, extension count incremented. -/
def lateSuccessor (t : Task) (now : Nat) : Task :=
  { t with
    assigneeReaction := some TaskReaction.running_late,
    updatedAt := now,
    urgency := { t.urgency with
      expiresAt := t.urgency.expiresAt + TASK_TIME_MS_RUNNING_LATE_EXTENSION },
    extensionCount := t.extensionCount + 1,
    ttl := t.urgency.expiresAt + TASK_TIME_MS_RUNNING_LATE_EXTENSION +
      TASK_TIME_MS_DEFAULT_TTL_AFTER_EXPIRY }

theorem running_late_step (t : Task) (uid : String) (now : Nat)
    (outcome : Except String Unit)
    (hp : t.status = TaskStatus.pending) (hu : t.assignedTo.uid = uid)
    (hc : t.extensionCount < 3) :
    updateTaskReactionRun (some t) TaskReaction.running_late uid now outcome =
      { result := Except.ok (lateSuccessor t now),
        store := some (lateSuccessor t now), notified := true } := by
  have hnc : ¬(TASK_TIME_MINUTES_MAX_EXTENSIONS ≤ t.extensionCount) := by
    unfold TASK_TIME_MINUTES_MAX_EXTENSIONS
    omega
  simp [updateTaskReactionRun, reactionUpdate, lateSuccessor, hp, hu, hnc]

/-- `N` successive accepted running-late reactions, each applied through
`updateTaskReactionRun`; `none` once one of them is rejected. -/
def iterLate (uid : String) (now : Nat) (s : Option Task) : Nat → Option Task
  | 0 => s
  | n + 1 =>
    match iterLate uid now s n with
    | none => none
    | some t =>
      match (updateTaskReactionRun (some t) TaskReaction.running_late uid now
          (Except.ok ())).result with
      | Except.ok t' => some t'
      | Except.error _ => none

theorem iterLate_invariant (t : Task) (now : Nat)
    (hp : t.status = TaskStatus.pending) (h0 : t.extensionCount = 0) :
    ∀ N, N ≤ 3 → ∃ t',
      iterLate t.assignedTo.uid now (some t) N = some t' ∧
      t'.extensionCount = N ∧ t'.status = TaskStatus.pending ∧
      t'.assignedTo = t.assignedTo := by
  intro N
  induction N with
  | zero => exact fun _ => ⟨t, rfl, h0, hp, rfl⟩
  | succ k ih =>
    intro hk
    obtain ⟨tk, hiter, hcount, hpend, hassign⟩ := ih (Nat.le_of_succ_le hk)
    have hstep := running_late_step tk t.assignedTo.uid now (Except.ok ())
      hpend (by rw [hassign]) (by omega)
    refine ⟨lateSuccessor tk now, ?_, ?_, ?_, ?_⟩
    · simp [iterLate, hiter, hstep]
    · simp [lateSuccessor, hcount]
    · simp [lateSuccessor, hpend]
    · simp [lateSuccessor, hassign]

/-- Claim C2: on a pending task with `extensionCount = N`, a running-late
reaction by the assignee succeeds when `N < 3`, setting the persisted expiry
to the previous expiry plus 30 minutes, recomputing ttl as the new expiry
plus 7 days and incrementing the extension count; after `N ≤ 3` accepted
running-late reactions the count equals `N`, and the attempt made when
`N = 3` fails with the max-extensions error. -/
theorem running_late_extension_policy (t : Task) (now : Nat)
    (outcome : Except String Unit) (hp : t.status = TaskStatus.pending) :
    (t.extensionCount < 3 →
      updateTaskReactionRun (some t) TaskReaction.running_late
          t.assignedTo.uid now outcome =
        { result := Except.ok (lateSuccessor t now),
          store := some (lateSuccessor t now), notified := true } ∧
      (lateSuccessor t now).urgency.expiresAt =
        t.urgency.expiresAt + 30 * 60 * 1000 ∧
      (lateSuccessor t now).ttl =
        (lateSuccessor t now).urgency.expiresAt + 7 * 24 * 60 * 60 * 1000 ∧
      (lateSuccessor t now).extensionCount = t.extensionCount + 1) ∧
    (t.extensionCount = 3 →
      (updateTaskReactionRun (some t) TaskReaction.running_late
          t.assignedTo.uid now outcome).result =
        Except.error (TaskError.badRequest TASK_ERROR_MESSAGES.MAX_EXTENSIONS)) ∧
    (t.extensionCount = 0 → ∀ N, N ≤ 3 → ∃ t',
      iterLate t.assignedTo.uid now (some t) N = some t' ∧
      t'.extensionCount = N) := by
  refine ⟨?_, ?_, ?_⟩
  · intro hc
    refine ⟨running_late_step t t.assignedTo.uid now outcome hp rfl hc, ?_, ?_, ?_⟩
    · simp [lateSuccessor, TASK_TIME_MS_RUNNING_LATE_EXTENSION]
    · simp [lateSuccessor, TASK_TIME_MS_RUNNING_LATE_EXTENSION,
        TASK_TIME_MS_DEFAULT_TTL_AFTER_EXPIRY]
    · simp [lateSuccessor]
  · intro hc
    have hle : TASK_TIME_MINUTES_MAX_EXTENSIONS ≤ t.extensionCount := by
      unfold TASK_TIME_MINUTES_MAX_EXTENSIONS
      omega
    simp [updateTaskReactionRun, reactionUpdate, hp, hle]
  · intro h0 N hN
    obtain ⟨t', h1, h2, _, _⟩ := iterLate_invariant t now hp h0 N hN
    exact ⟨t', h1, h2⟩

/-- Witness for claim C2: the sample pending task (extension count 0)
accepts a running-late reaction at time 500. -/
theorem running_late_extension_policy_witness :
    updateTaskReactionRun (some sampleTask) TaskReaction.running_late
        "u2" 500 (Except.ok ()) =
      { result := Except.ok (lateSuccessor sampleTask 500),
        store := some (lateSuccessor sampleTask 500), notified := true } :=
  ((running_late_extension_policy sampleTask 500 (Except.ok ()) rfl).1
    (by decide)).1

/-- Claim C3: a running-late reaction by the assignee on a pending task
whose extension count is already at the cap fails with the max-extensions
error before any write: the stored document is unchanged in every field and
no notification dispatch is attempted. -/
theorem running_late_at_cap_rejected (t : Task) (uid : String) (now : Nat)
    (outcome : Except String Unit) (hp : t.status = TaskStatus.pending)
    (hu : t.assignedTo.uid = uid) (hc : 3 ≤ t.extensionCount) :
    updateTaskReactionRun (some t) TaskReaction.running_late uid now outcome =
      { result := Except.error (TaskError.badRequest TASK_ERROR_MESSAGES.MAX_EXTENSIONS),
        store := some t, notified := false } := by
  have hle : TASK_TIME_MINUTES_MAX_EXTENSIONS ≤ t.extensionCount := by
    unfold TASK_TIME_MINUTES_MAX_EXTENSIONS
    omega
  simp [updateTaskReactionRun, reactionUpdate, hp, hu, hle]

/-- Witness for claim C3 on the sample task with extension count 3. -/
theorem running_late_at_cap_rejected_witness :
    updateTaskReactionRun (some { sampleTask with extensionCount := 3 })
        TaskReaction.running_late "u2" 900 (Except.ok ()) =
      { result := Except.error (TaskError.badRequest TASK_ERROR_MESSAGES.MAX_EXTENSIONS),
        store := some { sampleTask with extensionCount := 3 }, notified := false } :=
  running_late_at_cap_rejected { sampleTask with extensionCount := 3 }
    "u2" 900 (Except.ok ()) rfl rfl (by decide)

/-! ## Lazy expiry on read (claim C4) -/

/-- Claim C4: an authorized read of a pending task whose expiry instant is ≤
now returns the task with status expired and persists `{status: expired,
updatedAt: now}` as part of the read; reading a pending task whose expiry is
still in the future, or a non-pending task, persists no change. -/
theorem getTaskById_lazy_expiry (t : Task) (u : String) (now : Nat)
    (hauth : t.createdBy.uid = u ∨ t.assignedTo.uid = u) :
    (t.status = TaskStatus.pending → t.urgency.expiresAt ≤ now →
      getTaskByIdRun (some t) u now =
        { result := Except.ok { t with status := TaskStatus.expired, updatedAt := now },
          store := some { t with status := TaskStatus.expired, updatedAt := now } }) ∧
    (t.status = TaskStatus.pending → now < t.urgency.expiresAt →
      getTaskByIdRun (some t) u now =
        { result := Except.ok t, store := some t }) ∧
    (t.status ≠ TaskStatus.pending →
      getTaskByIdRun (some t) u now =
        { result := Except.ok t, store := some t }) := by
  have hna : ¬(t.createdBy.uid ≠ u ∧ t.assignedTo.uid ≠ u) := by
    rcases hauth with h | h
    · exact fun hx => hx.1 h
    · exact fun hx => hx.2 h
  refine ⟨?_, ?_, ?_⟩
  · intro hp hexp
    simp [getTaskByIdRun, isExpired, hna, hp, hexp]
  · intro hp hfresh
    have : ¬(t.urgency.expiresAt ≤ now) := by omega
    simp [getTaskByIdRun, isExpired, hna, hp, this]
  · intro hnp
    simp [getTaskByIdRun, isExpired, hna, hnp]

/-- Witness for claim C4: reading the sample pending task (expiry 1000000)
at time 2000000 returns and persists it as expired. -/
theorem getTaskById_lazy_expiry_witness :
    getTaskByIdRun (some sampleTask) "u1" 2000000 =
      { result := Except.ok
          { sampleTask with status := TaskStatus.expired, updatedAt := 2000000 },
        store := some
          { sampleTask with status := TaskStatus.expired, updatedAt := 2000000 } } :=
  (getTaskById_lazy_expiry sampleTask "u1" 2000000 (Or.inl rfl)).1 rfl (by decide)

/-! ## Task creation (claims C5 and C6) -/

/-- Claim C5: every successful create persists a task whose expiry is the
creation instant plus `durationMinutes` minutes, whose ttl is that expiry
plus 7 days, with status pending, no assignee reaction, extension count 0
and `notification.sent = false` at persist time. -/
theorem createTask_persists_initial_fields
    (creator assignee : TaskUser) (assignToEmail newId title : String)
    (note : Option String) (durationMinutes : Nat) (creatorUid : String)
    (now : Nat) (notifyOutcome : Except String Nat)
    (hne : assignee.uid ≠ creatorUid) :
    (∃ t', (createTaskRun (some creator) (some assignee) assignToEmail newId
        title note durationMinutes creatorUid now notifyOutcome).result =
      Except.ok t') ∧
    (createTaskRun (some creator) (some assignee) assignToEmail newId title
        note durationMinutes creatorUid now notifyOutcome).persisted =
      some (createTaskDoc newId title note durationMinutes creator assignee now) ∧
    (createTaskDoc newId title note durationMinutes creator assignee now).urgency.expiresAt =
      now + durationMinutes * (60 * 1000) ∧
    (createTaskDoc newId title note durationMinutes creator assignee now).ttl =
      (now + durationMinutes * (60 * 1000)) + 7 * 24 * 60 * 60 * 1000 ∧
    (createTaskDoc newId title note durationMinutes creator assignee now).status =
      TaskStatus.pending ∧
    (createTaskDoc newId title note durationMinutes creator assignee now).assigneeReaction =
      none ∧
    (createTaskDoc newId title note durationMinutes creator assignee now).extensionCount =
      0 ∧
    (createTaskDoc newId title note durationMinutes creator assignee now).notification.sent =
      false := by
  cases notifyOutcome with
  | ok sentAtMs =>
    refine ⟨⟨{ createTaskDoc newId title note durationMinutes creator assignee now with
        notification := { sent := true, sentAt := some sentAtMs, error := none } }, ?_⟩,
      ?_, ?_, ?_, rfl, rfl, rfl, rfl⟩
    · simp [createTaskRun, hne]
    · simp [createTaskRun, hne]
    · simp [createTaskDoc, TASK_TIME_MS_MINUTE]
    · simp [createTaskDoc, TASK_TIME_MS_MINUTE, TASK_TIME_MS_DEFAULT_TTL_AFTER_EXPIRY]
  | error msg =>
    refine ⟨⟨{ createTaskDoc newId title note durationMinutes creator assignee now with
        notification := { sent := false, sentAt := none, error := some msg } }, ?_⟩,
      ?_, ?_, ?_, rfl, rfl, rfl, rfl⟩
    · simp [createTaskRun, hne]
    · simp [createTaskRun, hne]
    · simp [createTaskDoc, TASK_TIME_MS_MINUTE]
    · simp [createTaskDoc, TASK_TIME_MS_MINUTE, TASK_TIME_MS_DEFAULT_TTL_AFTER_EXPIRY]

/-- Witness for claim C5: a duration-30 create at time 100 persists expiry
`100 + 30 * 60000` and ttl that expiry plus 7 days. -/
theorem createTask_persists_initial_fields_witness :
    (createTaskRun (some creatorA) (some assigneeB) "b@example.com" "t9"
        "Write minutes" none 30 "u1" 100 (Except.ok 150)).persisted =
      some (createTaskDoc "t9" "Write minutes" none 30 creatorA assigneeB 100) ∧
    (createTaskDoc "t9" "Write minutes" none 30 creatorA assigneeB 100).urgency.expiresAt =
      100 + 30 * (60 * 1000) :=
  ⟨(createTask_persists_initial_fields creatorA assigneeB "b@example.com" "t9"
      "Write minutes" none 30 "u1" 100 (Except.ok 150) (by decide)).2.1,
    (createTask_persists_initial_fields creatorA assigneeB "b@example.com" "t9"
      "Write minutes" none 30 "u1" 100 (Except.ok 150) (by decide)).2.2.1⟩

/-- Claim C6: a notification-coordinator exception raised as a side effect
of create or reaction is caught inside the lifecycle operation: the create
still returns success with the failure recorded only in the task's own
notification sub-record, the persisted task stays committed, and the
reaction operation's observable behaviour is identical whatever the
notification outcome, returning success whenever its own guards pass. -/
theorem notification_failure_never_aborts
    (creator assignee : TaskUser) (assignToEmail newId title : String)
    (note : Option String) (durationMinutes : Nat) (creatorUid : String)
    (now : Nat) (msg : String) (hne : assignee.uid ≠ creatorUid) :
    createTaskRun (some creator) (some assignee) assignToEmail newId title
        note durationMinutes creatorUid now (Except.error msg) =
      { result := Except.ok
          { createTaskDoc newId title note durationMinutes creator assignee now with
            notification := { sent := false, sentAt := none, error := some msg } },
        persisted :=
          some (createTaskDoc newId title note durationMinutes creator assignee now),
        store := some
          { createTaskDoc newId title note durationMinutes creator assignee now with
            notification := { sent := false, sentAt := none, error := some msg } } } ∧
    (∀ stored r uid rnow o1 o2,
      updateTaskReactionRun stored r uid rnow o1 =
        updateTaskReactionRun stored r uid rnow o2) ∧
    (∀ t2 : Task, ∀ r uid2 rnow,
      t2.status = TaskStatus.pending → t2.assignedTo.uid = uid2 →
      ¬(r = TaskReaction.running_late ∧ 3 ≤ t2.extensionCount) →
      ∃ t', (updateTaskReactionRun (some t2) r uid2 rnow (Except.error msg)).result =
          Except.ok t' ∧
        (updateTaskReactionRun (some t2) r uid2 rnow (Except.error msg)).store =
          some t') := by
  refine ⟨?_, ?_, ?_⟩
  · simp [createTaskRun, hne]
  · intro stored r uid rnow o1 o2
    rfl
  · intro t2 r uid2 rnow hp2 hu2 hcap
    have hupd : ∃ u', reactionUpdate t2 r rnow = Except.ok u' := by
      unfold reactionUpdate
      by_cases hr : r = TaskReaction.running_late
      · have hlt : ¬(TASK_TIME_MINUTES_MAX_EXTENSIONS ≤ t2.extensionCount) := by
          intro hle
          exact hcap ⟨hr, hle⟩
        simp [hr, hlt]
      · simp [hr]
    obtain ⟨u', hu'⟩ := hupd
    exact ⟨u', by simp [updateTaskReactionRun, hp2, hu2, hu'],
      by simp [updateTaskReactionRun, hp2, hu2, hu']⟩

/-- Witness for claim C6: a create whose notification attempt fails with
"push unavailable" still returns success, with the error recorded in the
task's notification sub-record. -/
theorem notification_failure_never_aborts_witness :
    (createTaskRun (some creatorA) (some assigneeB) "b@example.com" "t7"
        "Call the vendor" none 45 "u1" 200 (Except.error "push unavailable")).result =
      Except.ok
        { createTaskDoc "t7" "Call the vendor" none 45 creatorA assigneeB 200 with
          notification := { sent := false, sentAt := none, error := some "push unavailable" } } := by
  rw [(notification_failure_never_aborts creatorA assigneeB "b@example.com" "t7"
    "Call the vendor" none 45 "u1" 200 "push unavailable" (by decide)).1]

/-! ## Dispatch coordinator outcomes (claim C7) -/

theorem updateNotificationStatus_key (x : NotificationRecord)
    (st : NotificationStatus) (e : Option String) :
    (updateNotificationStatus x st e).taskId = x.taskId ∧
    (updateNotificationStatus x st e).recipientUid = x.recipientUid ∧
    (updateNotificationStatus x st e).type = x.type := by
  unfold updateNotificationStatus
  split <;> exact ⟨rfl, rfl, rfl⟩

/-- Claim C7: within `sendPushNotification`, a missing recipient, a missing
delivery token or an invalid token format each mark the record failed with
a descriptive reason and return normally; a provider-reported error marks
the record failed with the provider's message and raises that message to
the caller; provider success marks the record sent with a sent-at timestamp
and the provider's message id. -/
theorem sendPushNotification_outcomes (existing : Bool) (p : SendPushParams)
    (isTok : String → Bool) (ticket : Option PushTicket) (createdAt sentNow : Nat)
    (hgate : ¬(p.type = NotificationType.task_assigned ∧ existing = true)) :
    (∃ r, sendPushNotification existing none isTok ticket p createdAt sentNow =
        DispatchOutcome.done r ∧
      r.status = NotificationStatus.failed ∧ r.error = some "User not found") ∧
    (∀ user : FirebaseUser, jsTruthyStr user.fcmToken = false →
      ∃ r, sendPushNotification existing (some user) isTok ticket p createdAt sentNow =
          DispatchOutcome.done r ∧
        r.status = NotificationStatus.failed ∧
        r.error = some "User has no FCM token - needs to login to enable notifications") ∧
    (∀ user : FirebaseUser, ∀ tok, user.fcmToken = some tok → tok ≠ "" →
      isTok tok = false →
      ∃ r, sendPushNotification existing (some user) isTok ticket p createdAt sentNow =
          DispatchOutcome.done r ∧
        r.status = NotificationStatus.failed ∧
        r.error = some "Invalid Expo Push Token format") ∧
    (∀ user : FirebaseUser, ∀ tok m, user.fcmToken = some tok → tok ≠ "" →
      isTok tok = true → ticket = some (PushTicket.errorStatus (some m)) → m ≠ "" →
      ∃ r, sendPushNotification existing (some user) isTok ticket p createdAt sentNow =
          DispatchOutcome.raised r m ∧
        r.status = NotificationStatus.failed ∧ r.error = some m) ∧
    (∀ user : FirebaseUser, ∀ tok mid, user.fcmToken = some tok → tok ≠ "" →
      isTok tok = true → ticket = some (PushTicket.okStatus (some mid)) → mid ≠ "" →
      ∃ r, sendPushNotification existing (some user) isTok ticket p createdAt sentNow =
          DispatchOutcome.done r ∧
        r.status = NotificationStatus.sent ∧ r.sentAt = some sentNow ∧
        r.fcmMessageId = some mid) := by
  refine ⟨?_, ?_, ?_, ?_, ?_⟩
  · refine ⟨updateNotificationStatus (createNotificationRecord p createdAt)
        NotificationStatus.failed (some "User not found"), ?_, ?_, ?_⟩
    · simp [sendPushNotification, hgate]
    · simp [updateNotificationStatus, jsTruthyStr]
    · simp [updateNotificationStatus, jsTruthyStr]
  · intro user htok
    refine ⟨updateNotificationStatus (createNotificationRecord p createdAt)
        NotificationStatus.failed
        (some "User has no FCM token - needs to login to enable notifications"),
      ?_, ?_, ?_⟩
    · simp [sendPushNotification, hgate, htok]
    · simp [updateNotificationStatus, jsTruthyStr]
    · simp [updateNotificationStatus, jsTruthyStr]
  · intro user tok hutok htok hbad
    refine ⟨updateNotificationStatus (createNotificationRecord p createdAt)
        NotificationStatus.failed (some "Invalid Expo Push Token format"), ?_, ?_, ?_⟩
    · simp [sendPushNotification, hgate, hutok, hbad, jsTruthyStr, htok]
    · simp [updateNotificationStatus, jsTruthyStr]
    · simp [updateNotificationStatus, jsTruthyStr]
  · intro user tok m hutok htok hok hticket hm
    refine ⟨updateNotificationStatus (createNotificationRecord p createdAt)
        NotificationStatus.failed (some m), ?_, ?_, ?_⟩
    · simp [sendPushNotification, sendExpoNotification, hgate, hutok, hok,
        hticket, jsOrStr, hm, jsTruthyStr, htok]
    · simp [updateNotificationStatus, jsTruthyStr, hm]
    · simp [updateNotificationStatus, jsTruthyStr, hm]
  · intro user tok mid hutok htok hok hticket hmid
    refine ⟨{ createNotificationRecord p createdAt with
        status := NotificationStatus.sent, sentAt := some sentNow,
        fcmMessageId := some mid }, ?_, rfl, rfl, rfl⟩
    simp [sendPushNotification, sendExpoNotification, hgate, hutok, hok,
      hticket, jsOrStr, hmid, jsTruthyStr, htok]

/-- Recipient fixture with a registered, well-formed delivery token. -/
def aliceRecipient : FirebaseUser :=
  { name := some "Alice", email := some "a@example.com",
    fcmToken := some "ExponentPushToken[abc]" }

/-- Reaction-notification dispatch parameters fixture. -/
def reactionParams : SendPushParams :=
  { taskId := "t1", recipientUid := "u1", senderUid := "u2",
    type := NotificationType.task_reaction, title := "Bob responded",
    body := "on it" }

/-- Witness for claim C7: a reaction notification with a registered, valid
token and a successful provider ticket is marked sent with the provider id. -/
theorem sendPushNotification_outcomes_witness :
    ∃ r, sendPushNotification false (some aliceRecipient) (fun _ => true)
        (some (PushTicket.okStatus (some "ticket-1"))) reactionParams 10 20 =
        DispatchOutcome.done r ∧
      r.status = NotificationStatus.sent ∧ r.sentAt = some 20 ∧
      r.fcmMessageId = some "ticket-1" :=
  (sendPushNotification_outcomes false reactionParams (fun _ => true)
    (some (PushTicket.okStatus (some "ticket-1"))) 10 20
    (by simp)).2.2.2.2 aliceRecipient "ExponentPushToken[abc]" "ticket-1"
    rfl (by decide) rfl rfl (by decide)

/-! ## Assignment-notification idempotency (claim C8) -/

theorem checkExisting_pos (store : List NotificationRecord) (a b : String) :
    checkExistingNotification store a b NotificationType.task_assigned = true ↔
      0 < assignedCount store a b := by
  unfold checkExistingNotification assignedCount
  rw [List.any_eq_true, List.length_pos_iff_exists_mem]
  constructor
  · rintro ⟨r, hr, hpr⟩
    exact ⟨r, List.mem_filter.mpr ⟨hr, hpr⟩⟩
  · rintro ⟨r, hr⟩
    obtain ⟨h1, h2⟩ := List.mem_filter.mp hr
    exact ⟨r, h1, h2⟩

theorem sendPush_shape (existing : Bool) (recipient : Option FirebaseUser)
    (isTok : String → Bool) (ticket : Option PushTicket) (p : SendPushParams)
    (c s : Nat) :
    (sendPushNotification existing recipient isTok ticket p c s =
        DispatchOutcome.skippedExisting ∧
      p.type = NotificationType.task_assigned ∧ existing = true) ∨
    (∃ r, (sendPushNotification existing recipient isTok ticket p c s =
          DispatchOutcome.done r ∨
        ∃ m, sendPushNotification existing recipient isTok ticket p c s =
          DispatchOutcome.raised r m) ∧
      r.taskId = p.taskId ∧ r.recipientUid = p.recipientUid ∧ r.type = p.type) := by
  by_cases hg : p.type = NotificationType.task_assigned ∧ existing = true
  · exact Or.inl ⟨by simp [sendPushNotification, hg], hg⟩
  right
  cases recipient with
  | none =>
    refine ⟨updateNotificationStatus (createNotificationRecord p c)
        NotificationStatus.failed (some "User not found"),
      Or.inl (by simp [sendPushNotification, hg]), ?_, ?_, ?_⟩
    · exact (updateNotificationStatus_key _ _ _).1
    · exact (updateNotificationStatus_key _ _ _).2.1
    · exact (updateNotificationStatus_key _ _ _).2.2
  | some user =>
    by_cases htr : jsTruthyStr user.fcmToken = false
    · refine ⟨updateNotificationStatus (createNotificationRecord p c)
          NotificationStatus.failed
          (some "User has no FCM token - needs to login to enable notifications"),
        Or.inl (by simp [sendPushNotification, hg, htr]), ?_, ?_, ?_⟩
      · exact (updateNotificationStatus_key _ _ _).1
      · exact (updateNotificationStatus_key _ _ _).2.1
      · exact (updateNotificationStatus_key _ _ _).2.2
    · cases hft : user.fcmToken with
      | none => exact absurd (by rw [hft]; rfl) htr
      | some tok =>
        have htok : tok ≠ "" := by
          intro h0
          exact htr (by rw [hft, h0]; rfl)
        by_cases hv : isTok tok = false
        · refine ⟨updateNotificationStatus (createNotificationRecord p c)
              NotificationStatus.failed (some "Invalid Expo Push Token format"),
            Or.inl (by simp [sendPushNotification, hg, hft, jsTruthyStr, htok, hv]),
            ?_, ?_, ?_⟩
          · exact (updateNotificationStatus_key _ _ _).1
          · exact (updateNotificationStatus_key _ _ _).2.1
          · exact (updateNotificationStatus_key _ _ _).2.2
        · have hv' : isTok tok = true := by
            revert hv
            cases isTok tok <;> simp
          cases ticket with
          | none =>
            exact ⟨{ createNotificationRecord p c with
                status := NotificationStatus.sent, sentAt := some s,
                fcmMessageId := some "unknown" },
              Or.inl (by simp [sendPushNotification, sendExpoNotification, hg,
                hft, jsTruthyStr, htok, hv']), rfl, rfl, rfl⟩
          | some tk =>
            cases tk with
            | errorStatus m =>
              refine ⟨updateNotificationStatus (createNotificationRecord p c)
                  NotificationStatus.failed (some (jsOrStr m "Unknown Expo error")),
                Or.inr ⟨jsOrStr m "Unknown Expo error",
                  by simp [sendPushNotification, sendExpoNotification, hg, hft,
                    jsTruthyStr, htok, hv']⟩, ?_, ?_, ?_⟩
              · exact (updateNotificationStatus_key _ _ _).1
              · exact (updateNotificationStatus_key _ _ _).2.1
              · exact (updateNotificationStatus_key _ _ _).2.2
            | okStatus msgId =>
              exact ⟨{ createNotificationRecord p c with
                  status := NotificationStatus.sent, sentAt := some s,
                  fcmMessageId := some (jsOrStr msgId "unknown") },
                Or.inl (by simp [sendPushNotification, sendExpoNotification, hg,
                  hft, jsTruthyStr, htok, hv']), rfl, rfl, rfl⟩

theorem dispatchPush_assigned (store : List NotificationRecord)
    (env : DispatchEnv) (p : SendPushParams)
    (htype : p.type = NotificationType.task_assigned) :
    (assignedCount store p.taskId p.recipientUid = 0 →
      assignedCount (dispatchPush store env p).1 p.taskId p.recipientUid = 1) ∧
    (0 < assignedCount store p.taskId p.recipientUid →
      dispatchPush store env p = (store, DispatchOutcome.skippedExisting)) := by
  constructor
  · intro h0
    have hex : checkExistingNotification store p.taskId p.recipientUid p.type = false := by
      rw [htype]
      cases hb : checkExistingNotification store p.taskId p.recipientUid
          NotificationType.task_assigned with
      | false => rfl
      | true =>
        have := (checkExisting_pos store p.taskId p.recipientUid).mp hb
        omega
    rcases sendPush_shape false env.recipient env.isExpoPushToken env.ticket p
        env.createdAt env.sentNow with ⟨_, _, hfalse⟩ | ⟨r, hor, hk1, hk2, hk3⟩
    · exact absurd hfalse (by simp)
    · have hpr : decide (r.taskId = p.taskId ∧ r.recipientUid = p.recipientUid ∧
          r.type = NotificationType.task_assigned) = true := by
        simp only [decide_eq_true_eq]
        exact ⟨hk1, hk2, hk3.trans htype⟩
      have hone : (dispatchPush store env p).1 = store ++ [r] := by
        simp only [dispatchPush, hex]
        rcases hor with hdone | ⟨m, hraise⟩
        · rw [hdone]
        · rw [hraise]
      have hk3t : r.type = NotificationType.task_assigned := hk3.trans htype
      have hsing : List.filter (fun x =>
          decide (x.taskId = p.taskId ∧ x.recipientUid = p.recipientUid ∧
            x.type = NotificationType.task_assigned)) [r] = [r] := by
        simp [hk1, hk2, hk3t]
      rw [hone]
      unfold assignedCount at h0 ⊢
      rw [List.filter_append, List.length_append, h0, hsing]
      rfl
  · intro hpos
    have hex : checkExistingNotification store p.taskId p.recipientUid
        NotificationType.task_assigned = true :=
      (checkExisting_pos store p.taskId p.recipientUid).mpr hpos
    simp [dispatchPush, hex, sendPushNotification, htype]

theorem dispatchN_count (env : Nat → DispatchEnv) (p : SendPushParams)
    (store : List NotificationRecord)
    (htype : p.type = NotificationType.task_assigned)
    (h0 : assignedCount store p.taskId p.recipientUid = 0) :
    ∀ n, assignedCount (dispatchN env p store n) p.taskId p.recipientUid = min n 1 := by
  intro n
  induction n with
  | zero =>
    simp only [dispatchN]
    rw [h0]
    omega
  | succ k ih =>
    cases k with
    | zero =>
      have h1 := (dispatchPush_assigned store (env 0) p htype).1 h0
      simp only [dispatchN] at h1 ⊢
      rw [h1]
      decide
    | succ j =>
      have hpos : 0 < assignedCount (dispatchN env p store (j + 1))
          p.taskId p.recipientUid := by
        rw [ih]
        omega
      have hskip := (dispatchPush_assigned (dispatchN env p store (j + 1))
        (env (j + 1)) p htype).2 hpos
      calc assignedCount (dispatchN env p store (j + 2)) p.taskId p.recipientUid
          = assignedCount (dispatchPush (dispatchN env p store (j + 1))
              (env (j + 1)) p).1 p.taskId p.recipientUid := rfl
        _ = assignedCount (dispatchN env p store (j + 1)) p.taskId p.recipientUid := by
              rw [hskip]
        _ = min (j + 1) 1 := ih
        _ = min (j + 2) 1 := by omega

/-- Claim C8: for assignment-type notifications, starting from a store with
no record for the `(taskId, recipientUid)` pair, any positive number of
dispatch triggers leaves exactly one stored record, and every trigger after
the first finds the existing record through the `(taskId, recipientUid,
type)` lookup and skips without creating a record or attempting delivery. -/
theorem assignment_notification_idempotent (env : Nat → DispatchEnv)
    (p : SendPushParams) (store : List NotificationRecord)
    (htype : p.type = NotificationType.task_assigned)
    (h0 : assignedCount store p.taskId p.recipientUid = 0) :
    (∀ n, 1 ≤ n →
      assignedCount (dispatchN env p store n) p.taskId p.recipientUid = 1) ∧
    (∀ n, 1 ≤ n →
      dispatchPush (dispatchN env p store n) (env n) p =
        (dispatchN env p store n, DispatchOutcome.skippedExisting)) := by
  have hcnt := dispatchN_count env p store htype h0
  constructor
  · intro n hn
    rw [hcnt n]
    omega
  · intro n hn
    apply (dispatchPush_assigned _ (env n) p htype).2
    rw [hcnt n]
    omega

/-- Dispatch environment fixture for the idempotency witness. -/
def nullEnv : DispatchEnv :=
  { recipient := none, isExpoPushToken := fun _ => false, ticket := none,
    createdAt := 0, sentNow := 0 }

/-- Assignment-notification dispatch parameters fixture. -/
def assignParams : SendPushParams :=
  { taskId := "t1", recipientUid := "u2", senderUid := "u1",
    type := NotificationType.task_assigned, title := "New task from Alice",
    body := "Ship the report" }

/-- Witness for claim C8: two duplicate assignment triggers from an empty
store leave exactly one stored record. -/
theorem assignment_notification_idempotent_witness :
    assignedCount (dispatchN (fun _ => nullEnv) assignParams [] 2)
      assignParams.taskId assignParams.recipientUid = 1 :=
  (assignment_notification_idempotent (fun _ => nullEnv) assignParams []
    rfl rfl).1 2 (by decide)
